import Mathlib

/-!
Shallow embedding of the payment-coverage core of the Sistema-Mensualidades
repository.  Currency amounts are modelled as exact rationals (the source
works with Python floats and rounds to two decimals at the points the code
calls `round(_, 2)`); datetimes are modelled as integers (day numbers for the
reconciliation engine, whose date arithmetic only ever adds whole days, and
second counts for the notification scheduler, whose `timedelta.days`
computation floors a sub-day-resolution difference).
-/

namespace Mensualidades

/-- Rounding of an exact rational to the nearest integer with ties to even,
as Python's builtin `round` behaves on exact halves. -/
def pyRound (q : ℚ) : ℤ :=
  if q - ⌊q⌋ = 1/2 then (if 2 ∣ ⌊q⌋ then ⌊q⌋ else ⌊q⌋ + 1) else round q

/-- Model of Python `round(x, 2)`: round to two decimal places. -/
def round2 (q : ℚ) : ℚ := (pyRound (q * 100) : ℚ) / 100

/-- A rational is a whole number of cents (an exact two-decimal currency
amount). -/
def EsCent (q : ℚ) : Prop := (q * 100).den = 1

instance (q : ℚ) : Decidable (EsCent q) := by unfold EsCent; infer_instance

/-- Course pricing (`Curso` in `app.py`): monthly price and one-time
enrollment fee. -/
structure Curso where
  precio_mensual : ℚ
  precio_inscripcion : ℚ
deriving DecidableEq

/-- A payment record (`Pago` in `app.py`).  `monto = none` models a null or
non-numeric stored amount (which the replay loop's `float(...)` conversion
turns into a skip); `concepto = none` models a missing/None concept
attribute; `fecha_pago = none` models a missing payment date. -/
structure Pago where
  monto : Option ℚ
  concepto : Option String
  fecha_pago : Option ℤ
deriving DecidableEq

/-- Effective concept of a payment: `getattr(pago, 'concepto', 'auto') or
'auto'` in `_recalcular_cobertura_cliente` maps a missing/None or empty
concept to `'auto'`. -/
def conceptoEfectivo (c : Option String) : String :=
  match c with
  | none => "auto"
  | some s => if s = "" then "auto" else s

/-- Running state of the replay loop of `_recalcular_cobertura_cliente`:
`abono` is `abono_inscripcion_acumulado`, `carry` is `carry_mensualidades`,
`meses` is `total_meses`. -/
structure EstadoPago where
  abono : ℚ
  carry : ℚ
  meses : ℤ
deriving DecidableEq

/-- Initial replay state (all running totals zero). -/
def estadoInicial : EstadoPago := ⟨0, 0, 0⟩

/-- The monthly-credit accumulation step shared by the `auto` and
`mensualidad` branches: add the available balance to the running carry,
extract the whole months `int(carry // precio_mensual)`, and round the
remaining carry to two decimals when at least one month was completed. -/
def abonarMensualidades (precio_mensual : ℚ) (s : EstadoPago) (saldo : ℚ) :
    EstadoPago :=
  if 0 < ⌊(s.carry + saldo) / precio_mensual⌋ then
    { abono := s.abono
      carry := round2 (s.carry + saldo -
        ⌊(s.carry + saldo) / precio_mensual⌋ * precio_mensual)
      meses := s.meses + ⌊(s.carry + saldo) / precio_mensual⌋ }
  else
    { abono := s.abono, carry := s.carry + saldo, meses := s.meses }

/-- One iteration of the replay loop of `_recalcular_cobertura_cliente`
(`app.py`): skip null/non-numeric and non-positive amounts, then branch on
the effective concept (`auto` / `inscripcion` / `mensualidad`; any other
concept string falls through every branch and leaves the state unchanged). -/
def procesarPago (precio_mensual precio_inscripcion : ℚ) (s : EstadoPago)
    (p : Pago) : EstadoPago :=
  match p.monto with
  | none => s
  | some monto =>
    if monto ≤ 0 then s
    else if conceptoEfectivo p.concepto = "auto" then
      if 0 < precio_inscripcion ∧ s.abono < precio_inscripcion then
        if precio_inscripcion - s.abono ≤ monto then
          if 0 < monto - (precio_inscripcion - s.abono) then
            abonarMensualidades precio_mensual
              { s with abono := precio_inscripcion }
              (monto - (precio_inscripcion - s.abono))
          else { s with abono := precio_inscripcion }
        else { s with abono := s.abono + monto }
      else abonarMensualidades precio_mensual s monto
    else if conceptoEfectivo p.concepto = "inscripcion" then
      if 0 < precio_inscripcion then
        if 0 < max 0 (precio_inscripcion - s.abono) then
          { s with abono :=
              s.abono + min monto (max 0 (precio_inscripcion - s.abono)) }
        else s
      else s
    else if conceptoEfectivo p.concepto = "mensualidad" then
      abonarMensualidades precio_mensual s monto
    else s

/-- Replay a chronologically sorted payment list from a starting state. -/
def procesarPagos (precio_mensual precio_inscripcion : ℚ) (s : EstadoPago)
    (pagos : List Pago) : EstadoPago :=
  pagos.foldl (procesarPago precio_mensual precio_inscripcion) s

/-- Stable insertion of a payment in front of the first already-placed
payment with a key not smaller than its own.  Together with `ordenarPagos`
this models Python's stable `sorted(pagos, key=...)`. -/
def insertPago (key : Pago → ℤ) (p : Pago) : List Pago → List Pago
  | [] => [p]
  | q :: qs =>
    if key q < key p then q :: insertPago key p qs else p :: q :: qs

/-- Stable sort of the payment list by key, modelling
`sorted(cliente.pagos, key=lambda p: p.fecha_pago or datetime.now())`. -/
def ordenarPagos (key : Pago → ℤ) : List Pago → List Pago
  | [] => []
  | p :: ps => insertPago key p (ordenarPagos key ps)

/-- The student record fields read and written by the reconciliation code
(`Cliente` in `app.py`).  Dates are day numbers. -/
structure Cliente where
  curso : Option Curso
  fecha_inicio_clases : Option ℤ
  pagos : List Pago
  abono_inscripcion : ℚ
  mensualidades_canceladas : ℤ
  carry_mensualidad : ℚ
  fecha_fin : Option ℤ
deriving DecidableEq

/-- The dict returned by `_recalcular_cobertura_cliente`. -/
structure Resultado where
  inscripcion_completa : Bool
  abono_inscripcion : ℚ
  inscripcion_pendiente : ℚ
  total_meses : ℤ
  carry : ℚ
  fecha_fin : Option ℤ
deriving DecidableEq

/-- The zero-coverage dict returned on each degenerate input path. -/
def resultadoCero : Resultado :=
  { inscripcion_completa := false
    abono_inscripcion := 0
    inscripcion_pendiente := 0
    total_meses := 0
    carry := 0
    fecha_fin := none }

/-- The field writes performed on the student object by every degenerate
input path of `_recalcular_cobertura_cliente`. -/
def clienteCero (c : Cliente) : Cliente :=
  { c with
    mensualidades_canceladas := 0
    fecha_fin := none
    abono_inscripcion := 0
    carry_mensualidad := 0 }

/-- Coverage end date (`fecha_fin`): the classes-start date itself when no
whole month is covered, else start plus 30 days per completed month. -/
def fechaFinDe (inicio : ℤ) (s : EstadoPago) : Option ℤ :=
  if s.meses ≤ 0 then some inicio else some (inicio + s.meses * 30)

/-- The field writes section 4 of `_recalcular_cobertura_cliente` performs
on the student object after the replay. -/
def clienteActualizado (cliente : Cliente) (inicio : ℤ) (s : EstadoPago) :
    Cliente :=
  { cliente with
    abono_inscripcion := round2 s.abono
    mensualidades_canceladas := s.meses
    carry_mensualidad := round2 s.carry
    fecha_fin := fechaFinDe inicio s }

/-- The dict `_recalcular_cobertura_cliente` returns after the replay (the
dict carries the unrounded running totals). -/
def resultadoActualizado (curso : Curso) (inicio : ℤ) (s : EstadoPago) :
    Resultado :=
  { inscripcion_completa :=
      if 0 < curso.precio_inscripcion then
        decide (curso.precio_inscripcion ≤ s.abono)
      else true
    abono_inscripcion := s.abono
    inscripcion_pendiente := max 0 (curso.precio_inscripcion - s.abono)
    total_meses := s.meses
    carry := s.carry
    fecha_fin := fechaFinDe inicio s }

/-- The replay of section 3 of `_recalcular_cobertura_cliente`: sort the
payments chronologically (`now` is the key of payments without a date) and
fold the per-payment step from the all-zero state. -/
def estadoReplay (now : ℤ) (curso : Curso) (pagos : List Pago) : EstadoPago :=
  procesarPagos curso.precio_mensual curso.precio_inscripcion estadoInicial
    (ordenarPagos (fun p => p.fecha_pago.getD now) pagos)

/-- Model of `_recalcular_cobertura_cliente` (`app.py`).  `now` stands for
`datetime.now()`, used as the sort key of payments without a date.  The
function returns both the mutated student object (the source assigns
`cliente.abono_inscripcion`, `cliente.mensualidades_canceladas`,
`cliente.carry_mensualidad` and `cliente.fecha_fin` in place) and the
returned dict. -/
def recalcularCobertura (now : ℤ) (cliente : Cliente) : Cliente × Resultado :=
  match cliente.curso with
  | none => (clienteCero cliente, resultadoCero)
  | some curso =>
    if curso.precio_mensual ≤ 0 then (clienteCero cliente, resultadoCero)
    else
      match cliente.fecha_inicio_clases with
      | none => (clienteCero cliente, resultadoCero)
      | some inicio =>
        (clienteActualizado cliente inicio
           (estadoReplay now curso cliente.pagos),
         resultadoActualizado curso inicio
           (estadoReplay now curso cliente.pagos))

/-- The `inscripcion_pendiente` property of the `Cliente` model
(`app.py`): `max(0, curso.precio_inscripcion - abono_inscripcion)`, `0`
without a course. -/
def inscripcionPendiente (c : Cliente) : ℚ :=
  match c.curso with
  | none => 0
  | some curso => max 0 (curso.precio_inscripcion - c.abono_inscripcion)

/-- The numeric outputs of `calcular_distribucion_pago` (`helpers_pagos.py`).
The human-readable `desglose` line items and `mensaje` string are
presentation only and are not modelled; `es_valido` is `True` exactly when
the `desglose` list ends up non-empty. -/
structure Distribucion where
  inscripcion_cubierta : ℚ
  mensualidades_completas : ℤ
  carry_final : ℚ
  es_valido : Bool
deriving DecidableEq

/-- Model of `calcular_distribucion_pago` (`helpers_pagos.py`): the payment
previewer, computed from the student's stored state.  Inside the `auto` and
`mensualidad` branches, `carry_total % precio_mensual` is
`carry_total - precio_mensual * ⌊carry_total / precio_mensual⌋` (Python's
float modulus for a positive divisor). -/
def calcularDistribucionPago (monto : ℚ) (cliente : Cliente)
    (concepto : String) : Distribucion :=
  match cliente.curso with
  | none =>
    { inscripcion_cubierta := 0
      mensualidades_completas := 0
      carry_final := 0
      es_valido := false }
  | some curso =>
    if curso.precio_mensual ≤ 0 then
      { inscripcion_cubierta := 0
        mensualidades_completas := 0
        carry_final := 0
        es_valido := false }
    else if concepto = "auto" then
      if 0 < inscripcionPendiente cliente then
        if inscripcionPendiente cliente ≤ monto then
          if 0 < monto - inscripcionPendiente cliente then
            { inscripcion_cubierta := inscripcionPendiente cliente
              mensualidades_completas :=
                ⌊(cliente.carry_mensualidad +
                    (monto - inscripcionPendiente cliente)) /
                  curso.precio_mensual⌋
              carry_final :=
                cliente.carry_mensualidad +
                    (monto - inscripcionPendiente cliente) -
                  curso.precio_mensual *
                    ⌊(cliente.carry_mensualidad +
                        (monto - inscripcionPendiente cliente)) /
                      curso.precio_mensual⌋
              es_valido := true }
          else
            { inscripcion_cubierta := inscripcionPendiente cliente
              mensualidades_completas := 0
              carry_final := cliente.carry_mensualidad
              es_valido := true }
        else
          { inscripcion_cubierta := monto
            mensualidades_completas := 0
            carry_final := cliente.carry_mensualidad
            es_valido := true }
      else
        if 0 < monto then
          { inscripcion_cubierta := 0
            mensualidades_completas :=
              ⌊(cliente.carry_mensualidad + monto) / curso.precio_mensual⌋
            carry_final :=
              cliente.carry_mensualidad + monto - curso.precio_mensual *
                ⌊(cliente.carry_mensualidad + monto) / curso.precio_mensual⌋
            es_valido :=
              decide (0 < ⌊(cliente.carry_mensualidad + monto) /
                  curso.precio_mensual⌋) ||
                decide (0 < cliente.carry_mensualidad + monto -
                  curso.precio_mensual *
                    ⌊(cliente.carry_mensualidad + monto) /
                      curso.precio_mensual⌋) }
        else
          { inscripcion_cubierta := 0
            mensualidades_completas := 0
            carry_final := cliente.carry_mensualidad
            es_valido := false }
    else if concepto = "inscripcion" then
      { inscripcion_cubierta :=
          if 0 < inscripcionPendiente cliente then
            min monto (inscripcionPendiente cliente)
          else 0
        mensualidades_completas := 0
        carry_final := cliente.carry_mensualidad
        es_valido := true }
    else if concepto = "mensualidad" then
      { inscripcion_cubierta := 0
        mensualidades_completas :=
          ⌊(cliente.carry_mensualidad + monto) / curso.precio_mensual⌋
        carry_final :=
          cliente.carry_mensualidad + monto - curso.precio_mensual *
            ⌊(cliente.carry_mensualidad + monto) / curso.precio_mensual⌋
        es_valido :=
          decide (0 < ⌊(cliente.carry_mensualidad + monto) /
              curso.precio_mensual⌋) ||
            decide (0 < cliente.carry_mensualidad + monto -
              curso.precio_mensual *
                ⌊(cliente.carry_mensualidad + monto) /
                  curso.precio_mensual⌋) }
    else
      { inscripcion_cubierta := 0
        mensualidades_completas := 0
        carry_final := cliente.carry_mensualidad
        es_valido := false }

/-- The student fields read by the notification scheduler
(`reminder_scheduler.py`).  `fecha_fin` is a timestamp in seconds (the
source compares full datetimes). -/
structure Estudiante where
  activo : Bool
  tiene_curso : Bool
  fecha_fin : Option ℤ
  mensualidades_canceladas : ℤ
deriving DecidableEq

/-- Model of `(fecha_fin - datetime.now()).days`: a Python `timedelta`
normalises so that `.days` is the floor of the difference in days. -/
def diasParaVencer (fin now : ℤ) : ℤ := (fin - now).fdiv 86400

/-- Eligibility gate shared by the three scheduler tasks: the query filters
`activo=True`, then students without a course or without `fecha_fin`, or
with `mensualidades_canceladas == 0`, are skipped. -/
def elegibleAviso (e : Estudiante) : Bool :=
  e.activo && e.tiene_curso && e.fecha_fin.isSome &&
    decide (e.mensualidades_canceladas ≠ 0)

/-- Decision of `enviar_avisos_preventivos` (`reminder_scheduler.py`): a
pre-expiry reminder goes out when the eligible student expires in exactly
3 days. -/
def notificaPreventivo (now : ℤ) (e : Estudiante) : Bool :=
  elegibleAviso e &&
    match e.fecha_fin with
    | none => false
    | some fin => decide (diasParaVencer fin now = 3)

/-- Decision of `enviar_recordatorios_urgentes` (`reminder_scheduler.py`): a
post-expiry reminder goes out when the eligible student expired exactly
1 day ago. -/
def notificaUrgente (now : ℤ) (e : Estudiante) : Bool :=
  elegibleAviso e &&
    match e.fecha_fin with
    | none => false
    | some fin => decide (diasParaVencer fin now = -1)

/-- Decision of `enviar_recordatorios_criticos` (`reminder_scheduler.py`): a
critical reminder goes out when the eligible student expired at least 7 days
ago (`dias_para_vencer < -6`) and the number of days overdue is a multiple
of 7. -/
def notificaCritico (now : ℤ) (e : Estudiante) : Bool :=
  elegibleAviso e &&
    match e.fecha_fin with
    | none => false
    | some fin =>
      decide (diasParaVencer fin now < -6) &&
        decide ((diasParaVencer fin now).natAbs % 7 = 0)

/-- Day number of a Gregorian calendar date (days since 1970-01-01), the
standard civil-from-days correspondence; used to state the concrete-date
scenario of the spec. -/
def daysFromCivil (y m d : ℤ) : ℤ :=
  let y' := if m ≤ 2 then y - 1 else y
  let era := y'.fdiv 400
  let yoe := y' - era * 400
  let mp := (m + 9).emod 12
  let doy := (153 * mp + 2).fdiv 5 + d - 1
  let doe := yoe * 365 + yoe.fdiv 4 - yoe.fdiv 100 + doy
  era * 146097 + doe - 719468


/-- Invariant carried by the replay state when prices and amounts are
whole-cent values: enrollment total within [0, fee], carry within
[0, monthly price), both whole cents, months nonnegative. -/
def EstadoCent (precio_inscripcion precio_mensual : ℚ) (s : EstadoPago) :
    Prop :=
  0 ≤ s.abono ∧ s.abono ≤ precio_inscripcion ∧ EsCent s.abono ∧
    0 ≤ s.carry ∧ s.carry < precio_mensual ∧ EsCent s.carry ∧ 0 ≤ s.meses

/-- A rational is a whole number of cents exactly when it is `n / 100` for
some integer `n`. -/
lemma esCent_iff (q : ℚ) : EsCent q ↔ ∃ n : ℤ, q = (n : ℚ) / 100 := by
  constructor
  · intro h
    refine ⟨(q * 100).num, ?_⟩
    have h2 : ((q * 100).num : ℚ) = q * 100 := by
      have h3 := Rat.num_div_den (q * 100)
      rw [h] at h3
      simpa using h3
    rw [h2]
    ring
  · rintro ⟨n, rfl⟩
    unfold EsCent
    have h1 : (n : ℚ) / 100 * 100 = (n : ℚ) := by ring
    rw [h1]
    exact Rat.den_intCast n

lemma esCent_zero : EsCent 0 := by
  rw [esCent_iff]
  exact ⟨0, by norm_num⟩

lemma esCent_add {a b : ℚ} (ha : EsCent a) (hb : EsCent b) : EsCent (a + b) := by
  rw [esCent_iff] at ha hb ⊢
  obtain ⟨n, rfl⟩ := ha
  obtain ⟨k, rfl⟩ := hb
  exact ⟨n + k, by push_cast; ring⟩

lemma esCent_sub {a b : ℚ} (ha : EsCent a) (hb : EsCent b) : EsCent (a - b) := by
  rw [esCent_iff] at ha hb ⊢
  obtain ⟨n, rfl⟩ := ha
  obtain ⟨k, rfl⟩ := hb
  exact ⟨n - k, by push_cast; ring⟩

lemma esCent_intMul {a : ℚ} (n : ℤ) (ha : EsCent a) : EsCent ((n : ℚ) * a) := by
  rw [esCent_iff] at ha ⊢
  obtain ⟨k, rfl⟩ := ha
  exact ⟨n * k, by push_cast; ring⟩

lemma esCent_min {a b : ℚ} (ha : EsCent a) (hb : EsCent b) : EsCent (min a b) := by
  rcases le_total a b with h | h
  · rwa [min_eq_left h]
  · rwa [min_eq_right h]

lemma esCent_max {a b : ℚ} (ha : EsCent a) (hb : EsCent b) : EsCent (max a b) := by
  rcases le_total a b with h | h
  · rwa [max_eq_right h]
  · rwa [max_eq_left h]

/-- On whole-cent amounts, rounding to two decimals is the identity. -/
lemma round2_esCent {q : ℚ} (h : EsCent q) : round2 q = q := by
  obtain ⟨n, rfl⟩ := (esCent_iff q).1 h
  unfold round2 pyRound
  have h1 : (n : ℚ) / 100 * 100 = (n : ℚ) := by ring
  rw [h1, Int.floor_intCast]
  have h2 : ¬ ((n : ℚ) - (n : ℤ) = 1 / 2) := by
    norm_num
  rw [if_neg h2, round_intCast]

/-- Rounding to two decimals preserves nonnegativity. -/
lemma round2_nonneg {q : ℚ} (h : 0 ≤ q) : 0 ≤ round2 q := by
  have h100 : (0 : ℚ) ≤ q * 100 := by positivity
  have hfl : (0 : ℤ) ≤ ⌊q * 100⌋ := Int.floor_nonneg.2 h100
  have hpy : (0 : ℤ) ≤ pyRound (q * 100) := by
    unfold pyRound
    split
    · split
      · exact hfl
      · omega
    · rw [round_eq]
      exact Int.floor_nonneg.2 (by linarith)
  unfold round2
  have : (0 : ℚ) ≤ (pyRound (q * 100) : ℚ) := Int.cast_nonneg.2 hpy
  positivity

/-- Whole-month extraction keeps carry and month totals nonnegative. -/
lemma abonarMensualidades_nonneg {precio_mensual : ℚ} (hpm : 0 < precio_mensual)
    {t : EstadoPago} (htc : 0 ≤ t.carry) (htm : 0 ≤ t.meses) {saldo : ℚ}
    (hs : 0 ≤ saldo) :
    0 ≤ (abonarMensualidades precio_mensual t saldo).carry ∧
      0 ≤ (abonarMensualidades precio_mensual t saldo).meses := by
  have hc0 : (0 : ℚ) ≤ t.carry + saldo := by linarith
  have hm0 : (0 : ℤ) ≤ ⌊(t.carry + saldo) / precio_mensual⌋ :=
    Int.floor_nonneg.2 (by positivity)
  have hsub : (0 : ℚ) ≤ t.carry + saldo -
      ⌊(t.carry + saldo) / precio_mensual⌋ * precio_mensual := by
    have h1 : (⌊(t.carry + saldo) / precio_mensual⌋ : ℚ) ≤
        (t.carry + saldo) / precio_mensual := Int.floor_le _
    have h2 : (⌊(t.carry + saldo) / precio_mensual⌋ : ℚ) * precio_mensual ≤
        t.carry + saldo := by
      calc (⌊(t.carry + saldo) / precio_mensual⌋ : ℚ) * precio_mensual
          ≤ (t.carry + saldo) / precio_mensual * precio_mensual :=
            mul_le_mul_of_nonneg_right h1 (le_of_lt hpm)
        _ = t.carry + saldo := by field_simp
    linarith
  unfold abonarMensualidades
  split
  · exact ⟨round2_nonneg hsub, by simpa using add_nonneg htm hm0⟩
  · exact ⟨hc0, htm⟩

/-- Rounding zero to two decimals gives zero. -/
lemma round2_zero : round2 0 = 0 := round2_esCent esCent_zero

/-- The carry and month totals stay nonnegative across each replay step. -/
lemma procesarPago_nonneg {precio_mensual precio_inscripcion : ℚ}
    {s : EstadoPago} (hpm : 0 < precio_mensual)
    (h : 0 ≤ s.carry ∧ 0 ≤ s.meses) (p : Pago) :
    0 ≤ (procesarPago precio_mensual precio_inscripcion s p).carry ∧
      0 ≤ (procesarPago precio_mensual precio_inscripcion s p).meses := by
  obtain ⟨hc, hm⟩ := h
  cases hmo : p.monto with
  | none => simp [procesarPago, hmo, hc, hm]
  | some monto =>
    simp only [procesarPago, hmo]
    by_cases hle : monto ≤ 0
    · rw [if_pos hle]
      exact ⟨hc, hm⟩
    · rw [if_neg hle]
      have hmp : 0 < monto := lt_of_not_ge hle
      by_cases hauto : conceptoEfectivo p.concepto = "auto"
      · rw [if_pos hauto]
        by_cases hfalta : 0 < precio_inscripcion ∧ s.abono < precio_inscripcion
        · rw [if_pos hfalta]
          by_cases hfull : precio_inscripcion - s.abono ≤ monto
          · rw [if_pos hfull]
            by_cases hresto : 0 < monto - (precio_inscripcion - s.abono)
            · rw [if_pos hresto]
              exact @abonarMensualidades_nonneg precio_mensual hpm
                { s with abono := precio_inscripcion } hc hm _
                (le_of_lt hresto)
            · rw [if_neg hresto]
              exact ⟨hc, hm⟩
          · rw [if_neg hfull]
            exact ⟨hc, hm⟩
        · rw [if_neg hfalta]
          exact abonarMensualidades_nonneg hpm hc hm (le_of_lt hmp)
      · rw [if_neg hauto]
        by_cases hins : conceptoEfectivo p.concepto = "inscripcion"
        · rw [if_pos hins]
          by_cases h1 : 0 < precio_inscripcion
          · rw [if_pos h1]
            by_cases h2 : 0 < max 0 (precio_inscripcion - s.abono)
            · rw [if_pos h2]
              exact ⟨hc, hm⟩
            · rw [if_neg h2]
              exact ⟨hc, hm⟩
          · rw [if_neg h1]
            exact ⟨hc, hm⟩
        · rw [if_neg hins]
          by_cases hmen : conceptoEfectivo p.concepto = "mensualidad"
          · rw [if_pos hmen]
            exact abonarMensualidades_nonneg hpm hc hm (le_of_lt hmp)
          · rw [if_neg hmen]
            exact ⟨hc, hm⟩

/-- Replaying any payment list keeps carry and month totals nonnegative. -/
lemma procesarPagos_nonneg {precio_mensual precio_inscripcion : ℚ}
    (hpm : 0 < precio_mensual) (pagos : List Pago) (s : EstadoPago)
    (h : 0 ≤ s.carry ∧ 0 ≤ s.meses) :
    0 ≤ (procesarPagos precio_mensual precio_inscripcion s pagos).carry ∧
      0 ≤ (procesarPagos precio_mensual precio_inscripcion s pagos).meses := by
  induction pagos generalizing s with
  | nil => exact h
  | cons p ps ih =>
    exact ih _ (procesarPago_nonneg hpm h p)


/-- Membership survives stable insertion. -/
lemma mem_insertPago (key : Pago → ℤ) (x p : Pago) (l : List Pago) :
    p ∈ insertPago key x l ↔ p = x ∨ p ∈ l := by
  induction l with
  | nil => simp [insertPago]
  | cons q qs ih =>
    unfold insertPago
    split
    · simp only [List.mem_cons, ih]
      tauto
    · simp only [List.mem_cons]

/-- The stable sort permutes the payment list, so membership is preserved. -/
lemma mem_ordenarPagos (key : Pago → ℤ) (p : Pago) (l : List Pago) :
    p ∈ ordenarPagos key l ↔ p ∈ l := by
  induction l with
  | nil => simp [ordenarPagos]
  | cons q qs ih =>
    unfold ordenarPagos
    rw [mem_insertPago, ih, List.mem_cons]

/-- Inserting below an already-maximal trailing element commutes with the
trailing append. -/
lemma insertPago_append_last (key : Pago → ℤ) (p x : Pago) (l : List Pago)
    (hp : key p ≤ key x) :
    insertPago key p (l ++ [x]) = insertPago key p l ++ [x] := by
  induction l with
  | nil =>
    simp only [List.nil_append, insertPago]
    rw [if_neg (not_lt.2 hp)]
    rfl
  | cons q qs ih =>
    simp only [List.cons_append, insertPago, List.append_eq]
    split
    · rw [ih]
      simp
    · simp

/-- A payment whose sort key dominates the whole history sorts to the very
end: appending it commutes with the stable sort. -/
lemma ordenarPagos_append_last (key : Pago → ℤ) (x : Pago) (l : List Pago)
    (h : ∀ q ∈ l, key q ≤ key x) :
    ordenarPagos key (l ++ [x]) = ordenarPagos key l ++ [x] := by
  induction l with
  | nil => simp [ordenarPagos, insertPago]
  | cons p ps ih =>
    simp only [List.cons_append, ordenarPagos, List.append_eq]
    rw [ih (fun q hq => h q (List.mem_cons_of_mem _ hq)),
      insertPago_append_last _ _ _ _ (h p (List.mem_cons_self _ _))]

/-- C10: a payment whose concept attribute is missing/None or the empty
string is processed by the replay loop exactly as a payment with concept
`'auto'`; a payment with any other concept string outside
{`auto`, `inscripcion`, `mensualidad`} leaves the whole running state
(enrollment total, completed periods, carry) unchanged. -/
theorem c10_concepto_por_defecto_y_desconocido :
    (∀ precio_mensual precio_inscripcion : ℚ, ∀ s : EstadoPago,
      ∀ monto : Option ℚ, ∀ fecha fecha' : Option ℤ,
      procesarPago precio_mensual precio_inscripcion s
          ⟨monto, none, fecha⟩ =
        procesarPago precio_mensual precio_inscripcion s
          ⟨monto, some "auto", fecha'⟩ ∧
      procesarPago precio_mensual precio_inscripcion s
          ⟨monto, some "", fecha⟩ =
        procesarPago precio_mensual precio_inscripcion s
          ⟨monto, some "auto", fecha'⟩) ∧
    (∀ precio_mensual precio_inscripcion : ℚ, ∀ s : EstadoPago, ∀ monto : ℚ,
      ∀ fecha : Option ℤ, ∀ c : String,
      c ≠ "auto" → c ≠ "inscripcion" → c ≠ "mensualidad" → c ≠ "" →
      procesarPago precio_mensual precio_inscripcion s
        ⟨some monto, some c, fecha⟩ = s) := by
  constructor
  · intro precio_mensual precio_inscripcion s monto fecha fecha'
    cases monto with
    | none => exact ⟨rfl, rfl⟩
    | some m => exact ⟨rfl, rfl⟩
  · intro precio_mensual precio_inscripcion s monto fecha c h1 h2 h3 h4
    simp [procesarPago, conceptoEfectivo, h1, h2, h3, h4]

/-- Concrete instance of `c10_concepto_por_defecto_y_desconocido`: a payment
with the unknown concept `'otro'` is ignored by the replay. -/
theorem c10_concepto_witness :
    procesarPago 50 30 ⟨0, 0, 0⟩ ⟨some 10, some "otro", none⟩ =
      (⟨0, 0, 0⟩ : EstadoPago) :=
  c10_concepto_por_defecto_y_desconocido.2 50 30 ⟨0, 0, 0⟩ 10 none "otro"
    (by decide) (by decide) (by decide) (by decide)

/-- C4: reconciliation is total on the degenerate inputs — no course, a
non-positive monthly price, or a missing classes-start date each yield the
zero-coverage result (all derived fields zero, no end date); and any
payment with a null/non-numeric or non-positive amount is skipped by the
replay, contributing nothing to any output. -/
theorem c4_casos_degenerados_y_pagos_invalidos :
    (∀ (now : ℤ) (c : Cliente), c.curso = none →
      recalcularCobertura now c = (clienteCero c, resultadoCero)) ∧
    (∀ (now : ℤ) (c : Cliente) (curso : Curso), c.curso = some curso →
      curso.precio_mensual ≤ 0 →
      recalcularCobertura now c = (clienteCero c, resultadoCero)) ∧
    (∀ (now : ℤ) (c : Cliente) (curso : Curso), c.curso = some curso →
      c.fecha_inicio_clases = none →
      recalcularCobertura now c = (clienteCero c, resultadoCero)) ∧
    (∀ (precio_mensual precio_inscripcion : ℚ) (s : EstadoPago) (p : Pago),
      (p.monto = none ∨ ∃ m, p.monto = some m ∧ m ≤ 0) →
      procesarPago precio_mensual precio_inscripcion s p = s) := by
  refine ⟨?_, ?_, ?_, ?_⟩
  · intro now c h
    simp [recalcularCobertura, h]
  · intro now c curso h hple
    simp [recalcularCobertura, h, hple]
  · intro now c curso h hfecha
    by_cases hple : curso.precio_mensual ≤ 0
    · simp [recalcularCobertura, h, hple]
    · simp [recalcularCobertura, h, hple, hfecha]
  · intro precio_mensual precio_inscripcion s p hp
    rcases hp with hm | ⟨m, hm, hle⟩
    · simp [procesarPago, hm]
    · simp [procesarPago, hm, hle]

/-- Concrete instance of `c4_casos_degenerados_y_pagos_invalidos`: a student
without a course gets the zero-coverage result, and a negative-amount
payment is a no-op for the replay state. -/
theorem c4_casos_witness :
    recalcularCobertura 0 ⟨none, some 5, [], 3, 2, 7, some 9⟩ =
      (clienteCero ⟨none, some 5, [], 3, 2, 7, some 9⟩, resultadoCero) ∧
    procesarPago 50 30 ⟨1, 2, 3⟩ ⟨some (-5), some "auto", none⟩ =
      (⟨1, 2, 3⟩ : EstadoPago) :=
  ⟨c4_casos_degenerados_y_pagos_invalidos.1 0 _ rfl,
   c4_casos_degenerados_y_pagos_invalidos.2.2.2 50 30 ⟨1, 2, 3⟩ _
     (Or.inr ⟨-5, rfl, by norm_num⟩)⟩


/-- The replay step on an `inscripcion`-concept payment, unfolded. -/
lemma procesarPago_inscripcion_eq (precio_mensual precio_inscripcion : ℚ)
    (s : EstadoPago) (monto : ℚ) (fecha : Option ℤ) :
    procesarPago precio_mensual precio_inscripcion s
        ⟨some monto, some "inscripcion", fecha⟩ =
      if monto ≤ 0 then s
      else if 0 < precio_inscripcion then
        if 0 < max 0 (precio_inscripcion - s.abono) then
          { s with abono :=
              s.abono + min monto (max 0 (precio_inscripcion - s.abono)) }
        else s
      else s := rfl

/-- The replay step on an `auto`-concept payment, unfolded. -/
lemma procesarPago_auto_eq (precio_mensual precio_inscripcion : ℚ)
    (s : EstadoPago) (monto : ℚ) (fecha : Option ℤ) :
    procesarPago precio_mensual precio_inscripcion s
        ⟨some monto, some "auto", fecha⟩ =
      if monto ≤ 0 then s
      else if 0 < precio_inscripcion ∧ s.abono < precio_inscripcion then
        if precio_inscripcion - s.abono ≤ monto then
          if 0 < monto - (precio_inscripcion - s.abono) then
            abonarMensualidades precio_mensual
              { s with abono := precio_inscripcion }
              (monto - (precio_inscripcion - s.abono))
          else { s with abono := precio_inscripcion }
        else { s with abono := s.abono + monto }
      else abonarMensualidades precio_mensual s monto := rfl

/-- The replay step on a `mensualidad`-concept payment, unfolded. -/
lemma procesarPago_mensualidad_eq (precio_mensual precio_inscripcion : ℚ)
    (s : EstadoPago) (monto : ℚ) (fecha : Option ℤ) :
    procesarPago precio_mensual precio_inscripcion s
        ⟨some monto, some "mensualidad", fecha⟩ =
      if monto ≤ 0 then s
      else abonarMensualidades precio_mensual s monto := rfl

/-- C1: in the replay, an `inscripcion`-concept payment adds at most the
current enrollment shortfall to the running enrollment total (any excess is
discarded) and leaves carry and completed periods untouched; an
`auto`-concept payment is applied to the shortfall first — if it covers the
shortfall only partially the whole amount goes to enrollment and nothing
reaches the period logic, and only a payment covering the full shortfall
passes its remainder on to carry accumulation and whole-period
extraction. -/
theorem c1_muro_inscripcion_y_auto (precio_mensual precio_inscripcion : ℚ)
    (s : EstadoPago) (monto : ℚ) (fecha : Option ℤ)
    (hmonto : 0 < monto) (habono : 0 ≤ s.abono)
    (htope : s.abono ≤ precio_inscripcion) :
    (procesarPago precio_mensual precio_inscripcion s
        ⟨some monto, some "inscripcion", fecha⟩ =
      { s with
          abono := s.abono + min monto (precio_inscripcion - s.abono) }) ∧
    (0 < precio_inscripcion → s.abono < precio_inscripcion →
      monto < precio_inscripcion - s.abono →
      procesarPago precio_mensual precio_inscripcion s
          ⟨some monto, some "auto", fecha⟩ =
        { s with abono := s.abono + monto }) ∧
    (0 < precio_inscripcion → s.abono < precio_inscripcion →
      precio_inscripcion - s.abono ≤ monto →
      procesarPago precio_mensual precio_inscripcion s
          ⟨some monto, some "auto", fecha⟩ =
        (if 0 < monto - (precio_inscripcion - s.abono) then
          abonarMensualidades precio_mensual
            { s with abono := precio_inscripcion }
            (monto - (precio_inscripcion - s.abono))
        else { s with abono := precio_inscripcion })) := by
  refine ⟨?_, ?_, ?_⟩
  · rw [procesarPago_inscripcion_eq, if_neg (not_le.2 hmonto)]
    by_cases h1 : 0 < precio_inscripcion
    · rw [if_pos h1, max_eq_right (sub_nonneg.2 htope)]
      by_cases h2 : 0 < precio_inscripcion - s.abono
      · rw [if_pos h2]
      · rw [if_neg h2]
        have h3 : precio_inscripcion - s.abono = 0 :=
          le_antisymm (not_lt.1 h2) (sub_nonneg.2 htope)
        rw [h3, min_eq_right (le_of_lt hmonto), add_zero]
    · rw [if_neg h1]
      have hp0 : precio_inscripcion = 0 :=
        le_antisymm (not_lt.1 h1) (le_trans habono htope)
      have ha0 : s.abono = 0 := le_antisymm (hp0 ▸ htope) habono
      have h4 : precio_inscripcion - s.abono = 0 := by rw [hp0, ha0]; ring
      rw [h4, min_eq_right (le_of_lt hmonto), add_zero]
  · intro h1 h2 h3
    rw [procesarPago_auto_eq, if_neg (not_le.2 hmonto), if_pos ⟨h1, h2⟩,
      if_neg (not_le.2 h3)]
  · intro h1 h2 h3
    rw [procesarPago_auto_eq, if_neg (not_le.2 hmonto), if_pos ⟨h1, h2⟩,
      if_pos h3]

/-- Concrete instance of `c1_muro_inscripcion_y_auto` at monthly price 50,
enrollment fee 30, empty running state and a 20-peso payment. -/
theorem c1_muro_witness :
    (0 : ℚ) < 20 ∧ (0 : ℚ) ≤ (⟨0, 0, 0⟩ : EstadoPago).abono ∧
      (⟨0, 0, 0⟩ : EstadoPago).abono ≤ (30 : ℚ) ∧
      (procesarPago 50 30 ⟨0, 0, 0⟩ ⟨some 20, some "inscripcion", none⟩ =
        { (⟨0, 0, 0⟩ : EstadoPago) with
            abono := (⟨0, 0, 0⟩ : EstadoPago).abono + min 20 (30 - 0) }) :=
  ⟨by norm_num, by norm_num, by norm_num,
    (c1_muro_inscripcion_y_auto 50 30 ⟨0, 0, 0⟩ 20 none (by norm_num)
      (by norm_num) (by norm_num)).1⟩

/-- C5 (amended): exchanging the positions, in the chronological replay
order, of two payments that agree on amount and concept never changes the
replayed state — swapping their distinct timestamps is harmless exactly
when the exchange only permutes the two payments themselves in the sorted
order. -/
theorem c5_intercambio_en_replay (precio_mensual precio_inscripcion : ℚ)
    (s : EstadoPago) (l1 l2 l3 : List Pago) (p q : Pago)
    (hmonto : p.monto = q.monto) (hconc : p.concepto = q.concepto) :
    procesarPagos precio_mensual precio_inscripcion s
        (l1 ++ p :: l2 ++ q :: l3) =
      procesarPagos precio_mensual precio_inscripcion s
        (l1 ++ q :: l2 ++ p :: l3) := by
  have hstep : ∀ t : EstadoPago,
      procesarPago precio_mensual precio_inscripcion t p =
        procesarPago precio_mensual precio_inscripcion t q := by
    intro t
    unfold procesarPago
    rw [hmonto, hconc]
  simp only [procesarPagos, List.foldl_append, List.foldl_cons, hstep]

/-- Concrete instance of `c5_intercambio_en_replay`: two equal `auto`
payments with different dates can trade places in the replay order. -/
theorem c5_intercambio_witness :
    procesarPagos 50 0 ⟨0, 0, 0⟩
        ([] ++ (⟨some 10, some "auto", some 1⟩ : Pago) ::
          [] ++ (⟨some 10, some "auto", some 2⟩ : Pago) :: []) =
      procesarPagos 50 0 ⟨0, 0, 0⟩
        ([] ++ (⟨some 10, some "auto", some 2⟩ : Pago) ::
          [] ++ (⟨some 10, some "auto", some 1⟩ : Pago) :: []) :=
  c5_intercambio_en_replay 50 0 ⟨0, 0, 0⟩ [] [] [] _ _ rfl rfl

/-- C5 (counterexample): with enrollment fee 100 and monthly price 50,
swapping the timestamps (1 and 2) of the two identical 50-peso `auto`
payments around an `inscripcion` payment that shares timestamp 2 changes
the final carry from 30 to 0 — the stable sort moves the tied third payment
relative to the swapped pair, and the enrollment wall then discards its
amount. -/
theorem c5_contraejemplo :
    (recalcularCobertura 0
        ⟨some ⟨50, 100⟩, some 0,
          [⟨some 50, some "auto", some 1⟩,
            ⟨some 30, some "inscripcion", some 2⟩,
            ⟨some 50, some "auto", some 2⟩], 0, 0, 0, none⟩).2.carry = 30 ∧
    (recalcularCobertura 0
        ⟨some ⟨50, 100⟩, some 0,
          [⟨some 50, some "auto", some 2⟩,
            ⟨some 30, some "inscripcion", some 2⟩,
            ⟨some 50, some "auto", some 1⟩], 0, 0, 0, none⟩).2.carry = 0 := by
  constructor
  · norm_num [recalcularCobertura, estadoReplay, ordenarPagos, insertPago,
      procesarPagos, List.foldl_cons, List.foldl_nil, procesarPago_auto_eq,
      procesarPago_inscripcion_eq, procesarPago_mensualidad_eq,
      abonarMensualidades, estadoInicial, resultadoActualizado, fechaFinDe,
      round2_zero, min_def, max_def, Option.getD]
  · norm_num [recalcularCobertura, estadoReplay, ordenarPagos, insertPago,
      procesarPagos, List.foldl_cons, List.foldl_nil, procesarPago_auto_eq,
      procesarPago_inscripcion_eq, procesarPago_mensualidad_eq,
      abonarMensualidades, estadoInicial, resultadoActualizado, fechaFinDe,
      round2_zero, min_def, max_def, Option.getD]

/-- C3: with a course of positive monthly price and a set classes-start
date, reconciliation reports a coverage end date equal to the start date
plus 30 days per completed month, and the end date equals the start date
itself exactly when no month is completed. -/
theorem c3_fecha_fin_cobertura (now : ℤ) (c : Cliente) (curso : Curso)
    (inicio : ℤ) (hcurso : c.curso = some curso)
    (hpm : 0 < curso.precio_mensual)
    (hinicio : c.fecha_inicio_clases = some inicio) :
    (recalcularCobertura now c).2.fecha_fin =
      some (inicio + (recalcularCobertura now c).2.total_meses * 30) ∧
    ((recalcularCobertura now c).2.fecha_fin = some inicio ↔
      (recalcularCobertura now c).2.total_meses = 0) := by
  have h0 : ¬ curso.precio_mensual ≤ 0 := not_le.2 hpm
  simp only [recalcularCobertura, hcurso, h0, if_false, hinicio,
    resultadoActualizado, fechaFinDe]
  have hnn : 0 ≤ (estadoReplay now curso c.pagos).meses :=
    (@procesarPagos_nonneg curso.precio_mensual curso.precio_inscripcion hpm
      (ordenarPagos (fun p => p.fecha_pago.getD now) c.pagos) estadoInicial
      ⟨le_refl 0, le_refl 0⟩).2
  by_cases hz : (estadoReplay now curso c.pagos).meses ≤ 0
  · have hz0 : (estadoReplay now curso c.pagos).meses = 0 :=
      le_antisymm hz hnn
    rw [if_pos hz, hz0]
    norm_num
  · rw [if_neg hz]
    have hz1 : 0 < (estadoReplay now curso c.pagos).meses := lt_of_not_ge hz
    constructor
    · rfl
    · constructor
      · intro h
        have := Option.some_injective _ h
        omega
      · intro h
        omega

/-- Concrete instance of `c3_fecha_fin_cobertura`: a student with a course
and start date but no payments keeps the start date as end date. -/
theorem c3_fecha_fin_witness :
    (recalcularCobertura 0
        ⟨some ⟨50, 0⟩, some 7, [], 0, 0, 0, none⟩).2.fecha_fin =
      some (7 + (recalcularCobertura 0
        ⟨some ⟨50, 0⟩, some 7, [], 0, 0, 0, none⟩).2.total_meses * 30) :=
  (c3_fecha_fin_cobertura 0 ⟨some ⟨50, 0⟩, some 7, [], 0, 0, 0, none⟩
    ⟨50, 0⟩ 7 rfl (by norm_num) rfl).1

/-- C6 (amended): with monthly price 50, enrollment fee 0 and classes
starting 2025-01-01, a single 150-peso `mensualidad` payment reconciles to
3 completed months, zero carry, and a coverage end date 90 days after the
start — which is 2025-04-01 (not 2025-03-02: that date is only 60 days
after the start). -/
theorem c6_escenario_150 :
    (recalcularCobertura 0
        ⟨some ⟨50, 0⟩, some (daysFromCivil 2025 1 1),
          [⟨some 150, some "mensualidad", some 0⟩], 0, 0, 0,
          none⟩).2.total_meses = 3 ∧
    (recalcularCobertura 0
        ⟨some ⟨50, 0⟩, some (daysFromCivil 2025 1 1),
          [⟨some 150, some "mensualidad", some 0⟩], 0, 0, 0,
          none⟩).2.carry = 0 ∧
    (recalcularCobertura 0
        ⟨some ⟨50, 0⟩, some (daysFromCivil 2025 1 1),
          [⟨some 150, some "mensualidad", some 0⟩], 0, 0, 0,
          none⟩).2.fecha_fin = some (daysFromCivil 2025 1 1 + 90) ∧
    daysFromCivil 2025 1 1 + 90 = daysFromCivil 2025 4 1 := by
  refine ⟨?_, ?_, ?_, by decide⟩ <;>
    norm_num [recalcularCobertura, estadoReplay, ordenarPagos, insertPago,
      procesarPagos, List.foldl_cons, List.foldl_nil, procesarPago_auto_eq,
      procesarPago_inscripcion_eq, procesarPago_mensualidad_eq,
      abonarMensualidades, estadoInicial, resultadoActualizado, fechaFinDe,
      round2_zero, min_def, max_def, Option.getD]

/-- C6 (counterexample): the same scenario does not reach the claimed
end date 2025-03-02; the replayed end date is 90 days after the start while
2025-03-02 is only 60 days after it. -/
theorem c6_contraejemplo :
    (recalcularCobertura 0
        ⟨some ⟨50, 0⟩, some (daysFromCivil 2025 1 1),
          [⟨some 150, some "mensualidad", some 0⟩], 0, 0, 0,
          none⟩).2.fecha_fin ≠ some (daysFromCivil 2025 3 2) ∧
    (recalcularCobertura 0
        ⟨some ⟨50, 0⟩, some (daysFromCivil 2025 1 1),
          [⟨some 150, some "mensualidad", some 0⟩], 0, 0, 0,
          none⟩).2.total_meses = 3 ∧
    daysFromCivil 2025 3 2 - daysFromCivil 2025 1 1 = 60 := by
  refine ⟨?_, ?_, by decide⟩
  · norm_num [recalcularCobertura, estadoReplay, ordenarPagos, insertPago,
      procesarPagos, List.foldl_cons, List.foldl_nil, procesarPago_auto_eq,
      procesarPago_inscripcion_eq, procesarPago_mensualidad_eq,
      abonarMensualidades, estadoInicial, resultadoActualizado, fechaFinDe,
      round2_zero, min_def, max_def, Option.getD]
    decide
  · norm_num [recalcularCobertura, estadoReplay, ordenarPagos, insertPago,
      procesarPagos, List.foldl_cons, List.foldl_nil, procesarPago_auto_eq,
      procesarPago_inscripcion_eq, procesarPago_mensualidad_eq,
      abonarMensualidades, estadoInicial, resultadoActualizado, fechaFinDe,
      round2_zero, min_def, max_def, Option.getD]


/-- C8 (counterexample): reconciliation is not side-effect free — on a
student without a course it zeroes the stored derived fields in place, so
the returned student object differs from the input. -/
theorem c8_contraejemplo :
    (recalcularCobertura 0 ⟨none, none, [], 7, 2, 9, some 5⟩).1 ≠
      (⟨none, none, [], 7, 2, 9, some 5⟩ : Cliente) := by
  simp [recalcularCobertura, clienteCero]

/-- C8 (amended): reconciliation computes the four derived outputs and
itself writes them back into the student object (rounding the two currency
fields to two decimals, as the source's in-place assignments do); every
other stored field of the student is left unchanged, and committing the
transaction is all that remains for the caller. -/
theorem c8_escritura_en_cliente (now : ℤ) (c : Cliente) :
    (recalcularCobertura now c).1.curso = c.curso ∧
    (recalcularCobertura now c).1.fecha_inicio_clases =
      c.fecha_inicio_clases ∧
    (recalcularCobertura now c).1.pagos = c.pagos ∧
    (recalcularCobertura now c).1.abono_inscripcion =
      round2 (recalcularCobertura now c).2.abono_inscripcion ∧
    (recalcularCobertura now c).1.mensualidades_canceladas =
      (recalcularCobertura now c).2.total_meses ∧
    (recalcularCobertura now c).1.carry_mensualidad =
      round2 (recalcularCobertura now c).2.carry ∧
    (recalcularCobertura now c).1.fecha_fin =
      (recalcularCobertura now c).2.fecha_fin := by
  cases hcu : c.curso with
  | none =>
    simp [recalcularCobertura, hcu, clienteCero, resultadoCero, round2_zero]
  | some curso =>
    by_cases hpm : curso.precio_mensual ≤ 0
    · simp [recalcularCobertura, hcu, hpm, clienteCero, resultadoCero,
        round2_zero]
    · cases hfi : c.fecha_inicio_clases with
      | none =>
        simp [recalcularCobertura, hcu, hpm, hfi, clienteCero, resultadoCero,
          round2_zero]
      | some inicio =>
        simp [recalcularCobertura, hcu, hpm, hfi, clienteActualizado,
          resultadoActualizado]

/-- Boolean shape of the pre-expiry decision on a student with a set end
date. -/
lemma notificaPreventivo_eq (now : ℤ) (a c : Bool) (fin meses : ℤ) :
    notificaPreventivo now ⟨a, c, some fin, meses⟩ =
      (a && c && decide (meses ≠ 0) && decide (diasParaVencer fin now = 3)) := by
  simp [notificaPreventivo, elegibleAviso]

/-- Boolean shape of the post-expiry decision on a student with a set end
date. -/
lemma notificaUrgente_eq (now : ℤ) (a c : Bool) (fin meses : ℤ) :
    notificaUrgente now ⟨a, c, some fin, meses⟩ =
      (a && c && decide (meses ≠ 0) &&
        decide (diasParaVencer fin now = -1)) := by
  simp [notificaUrgente, elegibleAviso]

/-- Boolean shape of the critical-repeat decision on a student with a set
end date. -/
lemma notificaCritico_eq (now : ℤ) (a c : Bool) (fin meses : ℤ) :
    notificaCritico now ⟨a, c, some fin, meses⟩ =
      (a && c && decide (meses ≠ 0) &&
        (decide (diasParaVencer fin now < -6) &&
          decide ((diasParaVencer fin now).natAbs % 7 = 0))) := by
  simp [notificaCritico, elegibleAviso, Bool.and_assoc]

/-- A student with at least one completed month whose expiry is at most
3 days away has necessarily already started classes. -/
lemma inicio_pasado_de_dias (inicio meses now : ℤ) (h1 : 1 ≤ meses)
    (h2 : diasParaVencer (inicio + meses * 2592000) now ≤ 3) :
    inicio ≤ now := by
  unfold diasParaVencer at h2
  rw [Int.fdiv_eq_ediv _ (by norm_num)] at h2
  omega

/-- C9: given the reconciled relationship `fecha_fin = inicio + meses × 30
days`, the scheduler notifies exactly the active students with a course,
a positive number of completed months and classes already started, with the
pre-expiry reminder exactly at 3 days to expiry, the post-expiry reminder
exactly at 1 day past expiry, and the critical reminder exactly at 7 or
more days past expiry on multiples of 7 — the started-classes condition is
not tested by the source but is implied by the day conditions whenever at
least one month is completed. -/
theorem c9_clasificacion_de_avisos (now inicio meses : ℤ) (a c : Bool)
    (hm : 0 ≤ meses) :
    (notificaPreventivo now ⟨a, c, some (inicio + meses * 2592000), meses⟩ =
        true ↔
      (a = true ∧ c = true ∧ 0 < meses ∧ inicio ≤ now ∧
        diasParaVencer (inicio + meses * 2592000) now = 3)) ∧
    (notificaUrgente now ⟨a, c, some (inicio + meses * 2592000), meses⟩ =
        true ↔
      (a = true ∧ c = true ∧ 0 < meses ∧ inicio ≤ now ∧
        diasParaVencer (inicio + meses * 2592000) now = -1)) ∧
    (notificaCritico now ⟨a, c, some (inicio + meses * 2592000), meses⟩ =
        true ↔
      (a = true ∧ c = true ∧ 0 < meses ∧ inicio ≤ now ∧
        diasParaVencer (inicio + meses * 2592000) now ≤ -7 ∧
        (diasParaVencer (inicio + meses * 2592000) now).natAbs % 7 = 0)) := by
  refine ⟨?_, ?_, ?_⟩
  · rw [notificaPreventivo_eq]
    simp only [Bool.and_eq_true, decide_eq_true_eq]
    constructor
    · rintro ⟨⟨⟨ha, hc⟩, hmz⟩, hd⟩
      refine ⟨ha, hc, by omega, ?_, hd⟩
      exact inicio_pasado_de_dias inicio meses now (by omega) (by omega)
    · rintro ⟨ha, hc, hmz, hin, hd⟩
      exact ⟨⟨⟨ha, hc⟩, by omega⟩, hd⟩
  · rw [notificaUrgente_eq]
    simp only [Bool.and_eq_true, decide_eq_true_eq]
    constructor
    · rintro ⟨⟨⟨ha, hc⟩, hmz⟩, hd⟩
      refine ⟨ha, hc, by omega, ?_, hd⟩
      exact inicio_pasado_de_dias inicio meses now (by omega) (by omega)
    · rintro ⟨ha, hc, hmz, hin, hd⟩
      exact ⟨⟨⟨ha, hc⟩, by omega⟩, hd⟩
  · rw [notificaCritico_eq]
    simp only [Bool.and_eq_true, decide_eq_true_eq]
    constructor
    · rintro ⟨⟨⟨ha, hc⟩, hmz⟩, hd1, hd2⟩
      refine ⟨ha, hc, by omega, ?_, by omega, hd2⟩
      exact inicio_pasado_de_dias inicio meses now (by omega) (by omega)
    · rintro ⟨ha, hc, hmz, hin, hd1, hd2⟩
      exact ⟨⟨⟨ha, hc⟩, by omega⟩, by omega, hd2⟩

/-- Concrete instance of `c9_clasificacion_de_avisos`: one completed month
expiring in exactly 3 days triggers the pre-expiry reminder. -/
theorem c9_clasificacion_witness :
    (0 : ℤ) ≤ 1 ∧
      (notificaPreventivo 0
          ⟨true, true, some (259200 - 2592000 + 1 * 2592000), 1⟩ = true ↔
        (true = true ∧ true = true ∧ (0 : ℤ) < 1 ∧
          (259200 - 2592000 : ℤ) ≤ 0 ∧
          diasParaVencer (259200 - 2592000 + 1 * 2592000) 0 = 3)) :=
  ⟨by norm_num,
    (c9_clasificacion_de_avisos 0 (259200 - 2592000) 1 true true
      (by norm_num)).1⟩


/-- On whole-cent data, the month-extraction step yields a state satisfying
the whole-cent invariant whenever its input state does. -/
lemma abonarMensualidades_inv {precio_mensual precio_inscripcion : ℚ}
    (hpm : 0 < precio_mensual) (hcpm : EsCent precio_mensual)
    (t : EstadoPago) (saldo : ℚ)
    (hta0 : 0 ≤ t.abono) (htap : t.abono ≤ precio_inscripcion)
    (htac : EsCent t.abono) (htc : 0 ≤ t.carry) (hcc : EsCent t.carry)
    (htm : 0 ≤ t.meses) (hs : 0 ≤ saldo) (hsc : EsCent saldo) :
    EstadoCent precio_inscripcion precio_mensual
      (abonarMensualidades precio_mensual t saldo) := by
  have hc0 : (0 : ℚ) ≤ t.carry + saldo := by linarith
  have hfl : (⌊(t.carry + saldo) / precio_mensual⌋ : ℚ) ≤
      (t.carry + saldo) / precio_mensual := Int.floor_le _
  have hfu : (t.carry + saldo) / precio_mensual <
      ⌊(t.carry + saldo) / precio_mensual⌋ + 1 := Int.lt_floor_add_one _
  have hml : (⌊(t.carry + saldo) / precio_mensual⌋ : ℚ) * precio_mensual ≤
      t.carry + saldo := by
    calc (⌊(t.carry + saldo) / precio_mensual⌋ : ℚ) * precio_mensual
        ≤ (t.carry + saldo) / precio_mensual * precio_mensual :=
          mul_le_mul_of_nonneg_right hfl (le_of_lt hpm)
      _ = t.carry + saldo := by field_simp
  have hmu : t.carry + saldo <
      ((⌊(t.carry + saldo) / precio_mensual⌋ : ℚ) + 1) * precio_mensual := by
    calc t.carry + saldo
        = (t.carry + saldo) / precio_mensual * precio_mensual := by field_simp
      _ < ((⌊(t.carry + saldo) / precio_mensual⌋ : ℚ) + 1) * precio_mensual :=
          mul_lt_mul_of_pos_right hfu hpm
  unfold abonarMensualidades EstadoCent
  by_cases hm : 0 < ⌊(t.carry + saldo) / precio_mensual⌋
  · rw [if_pos hm]
    dsimp only
    have hcent : EsCent (t.carry + saldo -
        ⌊(t.carry + saldo) / precio_mensual⌋ * precio_mensual) :=
      esCent_sub (esCent_add hcc hsc) (esCent_intMul _ hcpm)
    rw [round2_esCent hcent]
    have hmz : (0 : ℤ) ≤ ⌊(t.carry + saldo) / precio_mensual⌋ := le_of_lt hm
    refine ⟨hta0, htap, htac, by linarith, by nlinarith, hcent, ?_⟩
    omega
  · rw [if_neg hm]
    dsimp only
    have h1 : (⌊(t.carry + saldo) / precio_mensual⌋ : ℚ) ≤ 0 := by
      exact_mod_cast not_lt.1 hm
    have hlt : t.carry + saldo < precio_mensual := by nlinarith
    exact ⟨hta0, htap, htac, hc0, hlt, esCent_add hcc hsc, htm⟩

/-- On whole-cent pricing and amounts, each replay step preserves the
`EstadoCent` invariant. -/
lemma procesarPago_inv {precio_mensual precio_inscripcion : ℚ}
    (hpm : 0 < precio_mensual) (hpi : 0 ≤ precio_inscripcion)
    (hcpm : EsCent precio_mensual) (hcpi : EsCent precio_inscripcion)
    {s : EstadoPago} (hs : EstadoCent precio_inscripcion precio_mensual s)
    (p : Pago) (hp : EsCent (p.monto.getD 0)) :
    EstadoCent precio_inscripcion precio_mensual
      (procesarPago precio_mensual precio_inscripcion s p) := by
  obtain ⟨ha0, hap, hac, hc0, hcp, hcc, hm0⟩ := hs
  cases hmo : p.monto with
  | none =>
    simp only [procesarPago, hmo]
    exact ⟨ha0, hap, hac, hc0, hcp, hcc, hm0⟩
  | some monto =>
    have hmc : EsCent monto := by
      rw [hmo] at hp
      simpa using hp
    simp only [procesarPago, hmo]
    by_cases hle : monto ≤ 0
    · rw [if_pos hle]
      exact ⟨ha0, hap, hac, hc0, hcp, hcc, hm0⟩
    · rw [if_neg hle]
      have hmp : 0 < monto := lt_of_not_ge hle
      by_cases hauto : conceptoEfectivo p.concepto = "auto"
      · rw [if_pos hauto]
        by_cases hfalta : 0 < precio_inscripcion ∧ s.abono < precio_inscripcion
        · rw [if_pos hfalta]
          by_cases hfull : precio_inscripcion - s.abono ≤ monto
          · rw [if_pos hfull]
            by_cases hresto : 0 < monto - (precio_inscripcion - s.abono)
            · rw [if_pos hresto]
              exact @abonarMensualidades_inv precio_mensual precio_inscripcion
                hpm hcpm { s with abono := precio_inscripcion }
                (monto - (precio_inscripcion - s.abono)) hpi (le_refl _) hcpi
                hc0 hcc hm0 (le_of_lt hresto)
                (esCent_sub hmc (esCent_sub hcpi hac))
            · rw [if_neg hresto]
              unfold EstadoCent
              dsimp only
              exact ⟨hpi, le_refl _, hcpi, hc0, hcp, hcc, hm0⟩
          · rw [if_neg hfull]
            have h2 := not_le.1 hfull
            unfold EstadoCent
            dsimp only
            exact ⟨by linarith, by linarith, esCent_add hac hmc, hc0, hcp,
              hcc, hm0⟩
        · rw [if_neg hfalta]
          exact @abonarMensualidades_inv precio_mensual precio_inscripcion
            hpm hcpm s monto ha0 hap hac hc0 hcc hm0 (le_of_lt hmp) hmc
      · rw [if_neg hauto]
        by_cases hins : conceptoEfectivo p.concepto = "inscripcion"
        · rw [if_pos hins]
          by_cases h1 : 0 < precio_inscripcion
          · rw [if_pos h1]
            by_cases h2 : 0 < max 0 (precio_inscripcion - s.abono)
            · rw [if_pos h2]
              have hmax : max 0 (precio_inscripcion - s.abono) =
                  precio_inscripcion - s.abono :=
                max_eq_right (sub_nonneg.2 hap)
              have hmin0 : 0 ≤
                  min monto (max 0 (precio_inscripcion - s.abono)) :=
                le_min (le_of_lt hmp) (le_max_left _ _)
              have hminle :
                  min monto (max 0 (precio_inscripcion - s.abono)) ≤
                    precio_inscripcion - s.abono := by
                rw [hmax]
                exact min_le_right _ _
              have hminc :
                  EsCent (min monto (max 0 (precio_inscripcion - s.abono))) :=
                esCent_min hmc (esCent_max esCent_zero (esCent_sub hcpi hac))
              unfold EstadoCent
              dsimp only
              exact ⟨by linarith, by linarith, esCent_add hac hminc, hc0,
                hcp, hcc, hm0⟩
            · rw [if_neg h2]
              exact ⟨ha0, hap, hac, hc0, hcp, hcc, hm0⟩
          · rw [if_neg h1]
            exact ⟨ha0, hap, hac, hc0, hcp, hcc, hm0⟩
        · rw [if_neg hins]
          by_cases hmen : conceptoEfectivo p.concepto = "mensualidad"
          · rw [if_pos hmen]
            exact @abonarMensualidades_inv precio_mensual precio_inscripcion
              hpm hcpm s monto ha0 hap hac hc0 hcc hm0 (le_of_lt hmp) hmc
          · rw [if_neg hmen]
            exact ⟨ha0, hap, hac, hc0, hcp, hcc, hm0⟩

/-- On whole-cent pricing and amounts, replaying a payment list preserves
the `EstadoCent` invariant. -/
lemma procesarPagos_inv {precio_mensual precio_inscripcion : ℚ}
    (hpm : 0 < precio_mensual) (hpi : 0 ≤ precio_inscripcion)
    (hcpm : EsCent precio_mensual) (hcpi : EsCent precio_inscripcion)
    (pagos : List Pago) (hall : ∀ p ∈ pagos, EsCent (p.monto.getD 0))
    {s : EstadoPago} (hs : EstadoCent precio_inscripcion precio_mensual s) :
    EstadoCent precio_inscripcion precio_mensual
      (procesarPagos precio_mensual precio_inscripcion s pagos) := by
  induction pagos generalizing s with
  | nil => exact hs
  | cons p ps ih =>
    exact ih (fun q hq => hall q (List.mem_cons_of_mem _ hq))
      (procesarPago_inv hpm hpi hcpm hcpi hs p
        (hall p (List.mem_cons_self _ _)))

/-- The all-zero starting state satisfies the whole-cent invariant. -/
lemma estadoInicial_inv {precio_mensual precio_inscripcion : ℚ}
    (hpm : 0 < precio_mensual) (hpi : 0 ≤ precio_inscripcion) :
    EstadoCent precio_inscripcion precio_mensual estadoInicial :=
  ⟨le_refl 0, hpi, esCent_zero, le_refl 0, hpm, esCent_zero, le_refl 0⟩

/-- C7 (amended): when the enrollment fee is nonnegative and the monthly
price, the enrollment fee and every stored payment amount are whole-cent
values, reconciliation leaves the stored fields inside the claimed ranges:
0 ≤ carry < monthly price, 0 ≤ enrollment paid ≤ enrollment fee, and a
nonnegative period count. -/
theorem c7_invariantes_centavos (now : ℤ) (c : Cliente) (curso : Curso)
    (inicio : ℤ) (hcurso : c.curso = some curso)
    (hpm : 0 < curso.precio_mensual) (hpi : 0 ≤ curso.precio_inscripcion)
    (hcpm : EsCent curso.precio_mensual)
    (hcpi : EsCent curso.precio_inscripcion)
    (hinicio : c.fecha_inicio_clases = some inicio)
    (hpagos : ∀ p ∈ c.pagos, EsCent (p.monto.getD 0)) :
    0 ≤ (recalcularCobertura now c).1.carry_mensualidad ∧
    (recalcularCobertura now c).1.carry_mensualidad <
      curso.precio_mensual ∧
    0 ≤ (recalcularCobertura now c).1.abono_inscripcion ∧
    (recalcularCobertura now c).1.abono_inscripcion ≤
      curso.precio_inscripcion ∧
    0 ≤ (recalcularCobertura now c).1.mensualidades_canceladas := by
  have h0 : ¬ curso.precio_mensual ≤ 0 := not_le.2 hpm
  have hallsorted : ∀ p ∈ ordenarPagos (fun p => p.fecha_pago.getD now)
      c.pagos, EsCent (p.monto.getD 0) := by
    intro p hp
    exact hpagos p ((mem_ordenarPagos _ p c.pagos).1 hp)
  have hinv := procesarPagos_inv hpm hpi hcpm hcpi
    (ordenarPagos (fun p => p.fecha_pago.getD now) c.pagos) hallsorted
    (estadoInicial_inv hpm hpi)
  obtain ⟨ha0, hap, hac, hc0, hcp, hcc, hm0⟩ := hinv
  simp only [recalcularCobertura, hcurso, h0, if_false, hinicio,
    clienteActualizado, estadoReplay]
  rw [round2_esCent hcc, round2_esCent hac]
  exact ⟨hc0, hcp, ha0, hap, hm0⟩

/-- C7 (counterexample): with monthly price 50 (and no enrollment fee) a
single `auto` payment of 99.997 — a sub-cent amount — leaves the stored
carry rounded up to exactly 50, violating `carry < monthly_price`. -/
theorem c7_contraejemplo :
    (recalcularCobertura 0
        ⟨some ⟨50, 0⟩, some 0, [⟨some (99997/1000), some "auto", some 1⟩],
          0, 0, 0, none⟩).1.carry_mensualidad = 50 ∧
    ¬ ((recalcularCobertura 0
        ⟨some ⟨50, 0⟩, some 0, [⟨some (99997/1000), some "auto", some 1⟩],
          0, 0, 0, none⟩).1.carry_mensualidad < (50 : ℚ)) := by
  have heval : (recalcularCobertura 0
      ⟨some ⟨50, 0⟩, some 0, [⟨some (99997/1000), some "auto", some 1⟩],
        0, 0, 0, none⟩).1.carry_mensualidad = 50 := by
    norm_num [recalcularCobertura, estadoReplay, ordenarPagos, insertPago,
      procesarPagos, List.foldl_cons, List.foldl_nil, procesarPago_auto_eq,
      abonarMensualidades, estadoInicial, clienteActualizado, fechaFinDe,
      round2, pyRound, round_eq, Option.getD]
  exact ⟨heval, by rw [heval]; norm_num⟩


/-- The previewer on an `auto` concept, unfolded at a literal student. -/
lemma calcularDistribucionPago_auto_eq (monto : ℚ) (curso : Curso)
    (fi : Option ℤ) (lp : List Pago) (A : ℚ) (mz : ℤ) (C : ℚ)
    (ff : Option ℤ) :
    calcularDistribucionPago monto ⟨some curso, fi, lp, A, mz, C, ff⟩
        "auto" =
      if curso.precio_mensual ≤ 0 then ⟨0, 0, 0, false⟩
      else if 0 < max 0 (curso.precio_inscripcion - A) then
        if max 0 (curso.precio_inscripcion - A) ≤ monto then
          if 0 < monto - max 0 (curso.precio_inscripcion - A) then
            ⟨max 0 (curso.precio_inscripcion - A),
              ⌊(C + (monto - max 0 (curso.precio_inscripcion - A))) /
                curso.precio_mensual⌋,
              C + (monto - max 0 (curso.precio_inscripcion - A)) -
                curso.precio_mensual *
                  ⌊(C + (monto - max 0 (curso.precio_inscripcion - A))) /
                    curso.precio_mensual⌋,
              true⟩
          else ⟨max 0 (curso.precio_inscripcion - A), 0, C, true⟩
        else ⟨monto, 0, C, true⟩
      else if 0 < monto then
        ⟨0, ⌊(C + monto) / curso.precio_mensual⌋,
          C + monto - curso.precio_mensual *
            ⌊(C + monto) / curso.precio_mensual⌋,
          decide (0 < ⌊(C + monto) / curso.precio_mensual⌋) ||
            decide (0 < C + monto - curso.precio_mensual *
              ⌊(C + monto) / curso.precio_mensual⌋)⟩
      else ⟨0, 0, C, false⟩ := rfl

/-- The previewer on an `inscripcion` concept, unfolded at a literal
student. -/
lemma calcularDistribucionPago_inscripcion_eq (monto : ℚ) (curso : Curso)
    (fi : Option ℤ) (lp : List Pago) (A : ℚ) (mz : ℤ) (C : ℚ)
    (ff : Option ℤ) :
    calcularDistribucionPago monto ⟨some curso, fi, lp, A, mz, C, ff⟩
        "inscripcion" =
      if curso.precio_mensual ≤ 0 then ⟨0, 0, 0, false⟩
      else
        ⟨if 0 < max 0 (curso.precio_inscripcion - A) then
            min monto (max 0 (curso.precio_inscripcion - A))
          else 0,
          0, C, true⟩ := rfl

/-- The previewer on a `mensualidad` concept, unfolded at a literal
student. -/
lemma calcularDistribucionPago_mensualidad_eq (monto : ℚ) (curso : Curso)
    (fi : Option ℤ) (lp : List Pago) (A : ℚ) (mz : ℤ) (C : ℚ)
    (ff : Option ℤ) :
    calcularDistribucionPago monto ⟨some curso, fi, lp, A, mz, C, ff⟩
        "mensualidad" =
      if curso.precio_mensual ≤ 0 then ⟨0, 0, 0, false⟩
      else
        ⟨0, ⌊(C + monto) / curso.precio_mensual⌋,
          C + monto - curso.precio_mensual *
            ⌊(C + monto) / curso.precio_mensual⌋,
          decide (0 < ⌊(C + monto) / curso.precio_mensual⌋) ||
            decide (0 < C + monto - curso.precio_mensual *
              ⌊(C + monto) / curso.precio_mensual⌋)⟩ := rfl

/-- The month-extraction step never changes the enrollment total. -/
lemma abonarMensualidades_abono (precio_mensual : ℚ) (t : EstadoPago)
    (saldo : ℚ) :
    (abonarMensualidades precio_mensual t saldo).abono = t.abono := by
  unfold abonarMensualidades
  split <;> rfl

/-- On whole-cent data, the month-extraction step completes exactly
`⌊(carry + saldo) / price⌋` months and leaves the modulus as carry —
matching the previewer's floor/modulus arithmetic. -/
lemma abonarMensualidades_deltas {precio_mensual : ℚ}
    (hpm : 0 < precio_mensual) (hcpm : EsCent precio_mensual)
    (t : EstadoPago) (saldo : ℚ) (hc0 : 0 ≤ t.carry) (hcc : EsCent t.carry)
    (hs : 0 ≤ saldo) (hsc : EsCent saldo) :
    (abonarMensualidades precio_mensual t saldo).meses - t.meses =
      ⌊(t.carry + saldo) / precio_mensual⌋ ∧
    (abonarMensualidades precio_mensual t saldo).carry =
      t.carry + saldo - precio_mensual *
        ⌊(t.carry + saldo) / precio_mensual⌋ := by
  unfold abonarMensualidades
  by_cases hm : 0 < ⌊(t.carry + saldo) / precio_mensual⌋
  · rw [if_pos hm]
    dsimp only
    have hcent : EsCent (t.carry + saldo -
        ⌊(t.carry + saldo) / precio_mensual⌋ * precio_mensual) :=
      esCent_sub (esCent_add hcc hsc) (esCent_intMul _ hcpm)
    rw [round2_esCent hcent]
    constructor
    · omega
    · ring
  · rw [if_neg hm]
    dsimp only
    have hz : ⌊(t.carry + saldo) / precio_mensual⌋ = 0 :=
      le_antisymm (not_lt.1 hm) (Int.floor_nonneg.2 (by positivity))
    rw [hz]
    constructor
    · omega
    · ring


/-- One `auto` payment previewed against a stored state equals the deltas
the engine's replay step computes from that state (whole-cent data). -/
lemma distribucion_equiv_auto (curso : Curso) (s : EstadoPago) (monto : ℚ)
    (fi : Option ℤ) (lp : List Pago) (mz : ℤ) (ff : Option ℤ)
    (fecha : Option ℤ)
    (hpm : 0 < curso.precio_mensual) (hcpm : EsCent curso.precio_mensual)
    (hcpi : EsCent curso.precio_inscripcion)
    (ha0 : 0 ≤ s.abono) (hac : EsCent s.abono)
    (hc0 : 0 ≤ s.carry) (hcc : EsCent s.carry)
    (hm : 0 < monto) (hmc : EsCent monto) :
    (calcularDistribucionPago monto
        ⟨some curso, fi, lp, s.abono, mz, s.carry, ff⟩
        "auto").inscripcion_cubierta =
      (procesarPago curso.precio_mensual curso.precio_inscripcion s
        ⟨some monto, some "auto", fecha⟩).abono - s.abono ∧
    (calcularDistribucionPago monto
        ⟨some curso, fi, lp, s.abono, mz, s.carry, ff⟩
        "auto").mensualidades_completas =
      (procesarPago curso.precio_mensual curso.precio_inscripcion s
        ⟨some monto, some "auto", fecha⟩).meses - s.meses ∧
    (calcularDistribucionPago monto
        ⟨some curso, fi, lp, s.abono, mz, s.carry, ff⟩
        "auto").carry_final =
      (procesarPago curso.precio_mensual curso.precio_inscripcion s
        ⟨some monto, some "auto", fecha⟩).carry := by
  rw [calcularDistribucionPago_auto_eq, procesarPago_auto_eq,
    if_neg (not_le.2 hpm), if_neg (not_le.2 hm)]
  by_cases hpend : 0 < max 0 (curso.precio_inscripcion - s.abono)
  · have hx : 0 < curso.precio_inscripcion - s.abono := by
      by_contra hcon
      rw [max_eq_left (not_lt.1 hcon)] at hpend
      exact lt_irrefl 0 hpend
    have hmax : max 0 (curso.precio_inscripcion - s.abono) =
        curso.precio_inscripcion - s.abono := max_eq_right (le_of_lt hx)
    have hcond : 0 < curso.precio_inscripcion ∧
        s.abono < curso.precio_inscripcion := ⟨by linarith, by linarith⟩
    rw [if_pos hpend, if_pos hcond, hmax]
    by_cases hfull : curso.precio_inscripcion - s.abono ≤ monto
    · rw [if_pos hfull, if_pos hfull]
      by_cases hresto : 0 < monto - (curso.precio_inscripcion - s.abono)
      · rw [if_pos hresto, if_pos hresto]
        have hd := abonarMensualidades_deltas hpm hcpm
          { s with abono := curso.precio_inscripcion }
          (monto - (curso.precio_inscripcion - s.abono)) hc0 hcc
          (le_of_lt hresto) (esCent_sub hmc (esCent_sub hcpi hac))
        have hd1 := hd.1
        have hd2 := hd.2
        dsimp only at hd1 hd2
        refine ⟨?_, ?_, ?_⟩
        · rw [abonarMensualidades_abono]
        · dsimp only
          exact hd1.symm
        · dsimp only
          exact hd2.symm
      · rw [if_neg hresto, if_neg hresto]
        refine ⟨?_, ?_, ?_⟩ <;> dsimp only
        all_goals first | rfl | ring
    · rw [if_neg hfull, if_neg hfull]
      refine ⟨?_, ?_, ?_⟩ <;> dsimp only
      all_goals first | rfl | ring
  · have hcond : ¬ (0 < curso.precio_inscripcion ∧
        s.abono < curso.precio_inscripcion) := by
      rintro ⟨h1, h2⟩
      exact hpend (by
        rw [max_eq_right (sub_nonneg.2 (le_of_lt h2))]
        linarith)
    rw [if_neg hpend, if_neg hcond, if_pos hm]
    have hd := abonarMensualidades_deltas hpm hcpm s monto hc0 hcc
      (le_of_lt hm) hmc
    refine ⟨?_, ?_, ?_⟩ <;> dsimp only
    · rw [abonarMensualidades_abono]
      try ring
    · exact hd.1.symm
    · exact hd.2.symm

/-- One `inscripcion` payment previewed against a stored state equals the
deltas the engine's replay step computes from that state. -/
lemma distribucion_equiv_inscripcion (curso : Curso) (s : EstadoPago)
    (monto : ℚ) (fi : Option ℤ) (lp : List Pago) (mz : ℤ) (ff : Option ℤ)
    (fecha : Option ℤ)
    (hpm : 0 < curso.precio_mensual) (ha0 : 0 ≤ s.abono)
    (hm : 0 < monto) :
    (calcularDistribucionPago monto
        ⟨some curso, fi, lp, s.abono, mz, s.carry, ff⟩
        "inscripcion").inscripcion_cubierta =
      (procesarPago curso.precio_mensual curso.precio_inscripcion s
        ⟨some monto, some "inscripcion", fecha⟩).abono - s.abono ∧
    (calcularDistribucionPago monto
        ⟨some curso, fi, lp, s.abono, mz, s.carry, ff⟩
        "inscripcion").mensualidades_completas =
      (procesarPago curso.precio_mensual curso.precio_inscripcion s
        ⟨some monto, some "inscripcion", fecha⟩).meses - s.meses ∧
    (calcularDistribucionPago monto
        ⟨some curso, fi, lp, s.abono, mz, s.carry, ff⟩
        "inscripcion").carry_final =
      (procesarPago curso.precio_mensual curso.precio_inscripcion s
        ⟨some monto, some "inscripcion", fecha⟩).carry := by
  rw [calcularDistribucionPago_inscripcion_eq, procesarPago_inscripcion_eq,
    if_neg (not_le.2 hpm), if_neg (not_le.2 hm)]
  by_cases h1 : 0 < curso.precio_inscripcion
  · rw [if_pos h1]
    by_cases h2 : 0 < max 0 (curso.precio_inscripcion - s.abono)
    · rw [if_pos h2, if_pos h2]
      refine ⟨?_, ?_, ?_⟩ <;> dsimp only
      all_goals first | rfl | ring
    · rw [if_neg h2, if_neg h2]
      refine ⟨?_, ?_, ?_⟩ <;> dsimp only
      all_goals first | rfl | ring
  · rw [if_neg h1]
    have h2 : ¬ 0 < max 0 (curso.precio_inscripcion - s.abono) := by
      rw [max_eq_left (by linarith : curso.precio_inscripcion - s.abono ≤ 0)]
      exact lt_irrefl 0
    rw [if_neg h2]
    refine ⟨?_, ?_, ?_⟩ <;> dsimp only
    all_goals first | rfl | ring

/-- One `mensualidad` payment previewed against a stored state equals the
deltas the engine's replay step computes from that state (whole-cent
data). -/
lemma distribucion_equiv_mensualidad (curso : Curso) (s : EstadoPago)
    (monto : ℚ) (fi : Option ℤ) (lp : List Pago) (mz : ℤ) (ff : Option ℤ)
    (fecha : Option ℤ)
    (hpm : 0 < curso.precio_mensual) (hcpm : EsCent curso.precio_mensual)
    (hc0 : 0 ≤ s.carry) (hcc : EsCent s.carry)
    (hm : 0 < monto) (hmc : EsCent monto) :
    (calcularDistribucionPago monto
        ⟨some curso, fi, lp, s.abono, mz, s.carry, ff⟩
        "mensualidad").inscripcion_cubierta =
      (procesarPago curso.precio_mensual curso.precio_inscripcion s
        ⟨some monto, some "mensualidad", fecha⟩).abono - s.abono ∧
    (calcularDistribucionPago monto
        ⟨some curso, fi, lp, s.abono, mz, s.carry, ff⟩
        "mensualidad").mensualidades_completas =
      (procesarPago curso.precio_mensual curso.precio_inscripcion s
        ⟨some monto, some "mensualidad", fecha⟩).meses - s.meses ∧
    (calcularDistribucionPago monto
        ⟨some curso, fi, lp, s.abono, mz, s.carry, ff⟩
        "mensualidad").carry_final =
      (procesarPago curso.precio_mensual curso.precio_inscripcion s
        ⟨some monto, some "mensualidad", fecha⟩).carry := by
  rw [calcularDistribucionPago_mensualidad_eq, procesarPago_mensualidad_eq,
    if_neg (not_le.2 hpm), if_neg (not_le.2 hm)]
  have hd := abonarMensualidades_deltas hpm hcpm s monto hc0 hcc
    (le_of_lt hm) hmc
  refine ⟨?_, ?_, ?_⟩ <;> dsimp only
  · rw [abonarMensualidades_abono]
    ring
  · exact hd.1.symm
  · exact hd.2.symm


/-- C2 (amended): on whole-cent prices and amounts, previewing one payment
against the reconciled stored state reports exactly the enrollment amount,
completed-month delta and final carry that a full replay computes after the
payment (carrying a latest timestamp) is appended to the history — the
previewer and the engine agree branch by branch. -/
theorem c2_previsualizacion_coincide (now t : ℤ) (curso : Curso)
    (inicio : ℤ) (pagos : List Pago) (A0 : ℚ) (M0 : ℤ) (C0 : ℚ)
    (F0 : Option ℤ) (monto : ℚ) (cstr : String)
    (hpm : 0 < curso.precio_mensual) (hpi : 0 ≤ curso.precio_inscripcion)
    (hcpm : EsCent curso.precio_mensual)
    (hcpi : EsCent curso.precio_inscripcion)
    (hm : 0 < monto) (hmc : EsCent monto)
    (hpagos : ∀ p ∈ pagos, EsCent (p.monto.getD 0))
    (ht : ∀ p ∈ pagos, p.fecha_pago.getD now ≤ t)
    (hconc : cstr = "auto" ∨ cstr = "inscripcion" ∨ cstr = "mensualidad") :
    (calcularDistribucionPago monto
        (recalcularCobertura now
          ⟨some curso, some inicio, pagos, A0, M0, C0, F0⟩).1
        cstr).inscripcion_cubierta =
      (recalcularCobertura now
        ⟨some curso, some inicio,
          pagos ++ [⟨some monto, some cstr, some t⟩], A0, M0, C0,
          F0⟩).2.abono_inscripcion -
        (recalcularCobertura now
          ⟨some curso, some inicio, pagos, A0, M0, C0,
            F0⟩).2.abono_inscripcion ∧
    (calcularDistribucionPago monto
        (recalcularCobertura now
          ⟨some curso, some inicio, pagos, A0, M0, C0, F0⟩).1
        cstr).mensualidades_completas =
      (recalcularCobertura now
        ⟨some curso, some inicio,
          pagos ++ [⟨some monto, some cstr, some t⟩], A0, M0, C0,
          F0⟩).2.total_meses -
        (recalcularCobertura now
          ⟨some curso, some inicio, pagos, A0, M0, C0, F0⟩).2.total_meses ∧
    (calcularDistribucionPago monto
        (recalcularCobertura now
          ⟨some curso, some inicio, pagos, A0, M0, C0, F0⟩).1
        cstr).carry_final =
      (recalcularCobertura now
        ⟨some curso, some inicio,
          pagos ++ [⟨some monto, some cstr, some t⟩], A0, M0, C0,
          F0⟩).2.carry := by
  have h0 : ¬ curso.precio_mensual ≤ 0 := not_le.2 hpm
  have hinv : EstadoCent curso.precio_inscripcion curso.precio_mensual
      (estadoReplay now curso pagos) :=
    procesarPagos_inv hpm hpi hcpm hcpi
      (ordenarPagos (fun p => p.fecha_pago.getD now) pagos)
      (fun p hp => hpagos p ((mem_ordenarPagos _ p pagos).1 hp))
      (estadoInicial_inv hpm hpi)
  obtain ⟨ha0, hap, hac, hc0, hcp, hcc, hm0⟩ := hinv
  have hcli : (recalcularCobertura now
      ⟨some curso, some inicio, pagos, A0, M0, C0, F0⟩).1 =
      ⟨some curso, some inicio, pagos,
        (estadoReplay now curso pagos).abono,
        (estadoReplay now curso pagos).meses,
        (estadoReplay now curso pagos).carry,
        fechaFinDe inicio (estadoReplay now curso pagos)⟩ := by
    simp only [recalcularCobertura, h0, if_false, clienteActualizado]
    rw [round2_esCent hac, round2_esCent hcc]
  have hsort : ordenarPagos (fun p => p.fecha_pago.getD now)
      (pagos ++ [⟨some monto, some cstr, some t⟩]) =
      ordenarPagos (fun p => p.fecha_pago.getD now) pagos ++
        [⟨some monto, some cstr, some t⟩] :=
    ordenarPagos_append_last _ _ _ ht
  have hr2 : estadoReplay now curso
      (pagos ++ [⟨some monto, some cstr, some t⟩]) =
      procesarPago curso.precio_mensual curso.precio_inscripcion
        (estadoReplay now curso pagos) ⟨some monto, some cstr, some t⟩ := by
    unfold estadoReplay procesarPagos
    rw [hsort, List.foldl_append, List.foldl_cons, List.foldl_nil]
  rw [hcli]
  simp only [recalcularCobertura, h0, if_false, resultadoActualizado]
  rw [hr2]
  rcases hconc with h | h | h
  · subst h
    exact distribucion_equiv_auto curso (estadoReplay now curso pagos) monto
      _ _ _ _ _ hpm hcpm hcpi ha0 hac hc0 hcc hm hmc
  · subst h
    exact distribucion_equiv_inscripcion curso (estadoReplay now curso pagos)
      monto _ _ _ _ _ hpm ha0 hm
  · subst h
    exact distribucion_equiv_mensualidad curso (estadoReplay now curso pagos)
      monto _ _ _ _ _ hpm hcpm hc0 hcc hm hmc


/-- C2 (counterexample): on a sub-cent amount the previewer and the engine
disagree — previewing an `auto` payment of 50.016 at monthly price 50 from
the empty state reports a final carry of 0.016, while appending that payment
and replaying leaves carry = round(0.016, 2) = 0.02, because the engine
rounds the carry to two decimals and the previewer's modulus does not. -/
theorem c2_contraejemplo :
    (calcularDistribucionPago (6252/125)
        (recalcularCobertura 0
          ⟨some ⟨50, 0⟩, some 0, [], 0, 0, 0, none⟩).1
        "auto").carry_final = 2/125 ∧
    (recalcularCobertura 0
        ⟨some ⟨50, 0⟩, some 0, [⟨some (6252/125), some "auto", some 1⟩],
          0, 0, 0, none⟩).2.carry = 1/50 ∧
    (2/125 : ℚ) ≠ 1/50 := by
  refine ⟨?_, ?_, by norm_num⟩
  · norm_num [recalcularCobertura, estadoReplay, ordenarPagos, insertPago,
      procesarPagos, List.foldl_cons, List.foldl_nil, procesarPago_auto_eq,
      calcularDistribucionPago_auto_eq, abonarMensualidades, estadoInicial,
      clienteActualizado, fechaFinDe, round2_zero, min_def, max_def,
      Option.getD]
  · norm_num [recalcularCobertura, estadoReplay, ordenarPagos, insertPago,
      procesarPagos, List.foldl_cons, List.foldl_nil, procesarPago_auto_eq,
      abonarMensualidades, estadoInicial, resultadoActualizado, fechaFinDe,
      round2, pyRound, round_eq, min_def, max_def, Option.getD]

/-- Concrete instance of `c2_previsualizacion_coincide`: previewing a
100-peso `auto` payment for a student with fee 30, monthly price 50 and one
prior 20-peso payment matches the append-and-replay deltas. -/
theorem c2_previsualizacion_witness :
    (calcularDistribucionPago 100
        (recalcularCobertura 0
          ⟨some ⟨50, 30⟩, some 0, [⟨some 20, some "auto", some 1⟩], 0, 0, 0,
            none⟩).1 "auto").inscripcion_cubierta =
      (recalcularCobertura 0
        ⟨some ⟨50, 30⟩, some 0,
          [⟨some 20, some "auto", some 1⟩] ++
            [⟨some 100, some "auto", some 5⟩], 0, 0, 0,
          none⟩).2.abono_inscripcion -
        (recalcularCobertura 0
          ⟨some ⟨50, 30⟩, some 0, [⟨some 20, some "auto", some 1⟩], 0, 0, 0,
            none⟩).2.abono_inscripcion ∧
    (calcularDistribucionPago 100
        (recalcularCobertura 0
          ⟨some ⟨50, 30⟩, some 0, [⟨some 20, some "auto", some 1⟩], 0, 0, 0,
            none⟩).1 "auto").mensualidades_completas =
      (recalcularCobertura 0
        ⟨some ⟨50, 30⟩, some 0,
          [⟨some 20, some "auto", some 1⟩] ++
            [⟨some 100, some "auto", some 5⟩], 0, 0, 0,
          none⟩).2.total_meses -
        (recalcularCobertura 0
          ⟨some ⟨50, 30⟩, some 0, [⟨some 20, some "auto", some 1⟩], 0, 0, 0,
            none⟩).2.total_meses ∧
    (calcularDistribucionPago 100
        (recalcularCobertura 0
          ⟨some ⟨50, 30⟩, some 0, [⟨some 20, some "auto", some 1⟩], 0, 0, 0,
            none⟩).1 "auto").carry_final =
      (recalcularCobertura 0
        ⟨some ⟨50, 30⟩, some 0,
          [⟨some 20, some "auto", some 1⟩] ++
            [⟨some 100, some "auto", some 5⟩], 0, 0, 0,
          none⟩).2.carry :=
  c2_previsualizacion_coincide 0 5 ⟨50, 30⟩ 0
    [⟨some 20, some "auto", some 1⟩] 0 0 0 none 100 "auto"
    (by norm_num) (by norm_num)
    ((esCent_iff _).2 ⟨5000, by norm_num⟩)
    ((esCent_iff _).2 ⟨3000, by norm_num⟩)
    (by norm_num)
    ((esCent_iff _).2 ⟨10000, by norm_num⟩)
    (by
      intro p hp
      rw [List.mem_singleton] at hp
      subst hp
      exact (esCent_iff _).2 ⟨2000, by norm_num⟩)
    (by
      intro p hp
      rw [List.mem_singleton] at hp
      subst hp
      decide)
    (Or.inl rfl)


/-- Concrete instance of `c7_invariantes_centavos`: fee 30, monthly price
50 and a 20-peso `auto` payment keep the stored fields inside the claimed
ranges. -/
theorem c7_invariantes_witness :
    0 ≤ (recalcularCobertura 0
        ⟨some ⟨50, 30⟩, some 0, [⟨some 20, some "auto", some 1⟩], 0, 0, 0,
          none⟩).1.carry_mensualidad ∧
    (recalcularCobertura 0
        ⟨some ⟨50, 30⟩, some 0, [⟨some 20, some "auto", some 1⟩], 0, 0, 0,
          none⟩).1.carry_mensualidad < (50 : ℚ) ∧
    0 ≤ (recalcularCobertura 0
        ⟨some ⟨50, 30⟩, some 0, [⟨some 20, some "auto", some 1⟩], 0, 0, 0,
          none⟩).1.abono_inscripcion ∧
    (recalcularCobertura 0
        ⟨some ⟨50, 30⟩, some 0, [⟨some 20, some "auto", some 1⟩], 0, 0, 0,
          none⟩).1.abono_inscripcion ≤ (30 : ℚ) ∧
    0 ≤ (recalcularCobertura 0
        ⟨some ⟨50, 30⟩, some 0, [⟨some 20, some "auto", some 1⟩], 0, 0, 0,
          none⟩).1.mensualidades_canceladas :=
  c7_invariantes_centavos 0
    ⟨some ⟨50, 30⟩, some 0, [⟨some 20, some "auto", some 1⟩], 0, 0, 0, none⟩
    ⟨50, 30⟩ 0 rfl (by norm_num) (by norm_num)
    ((esCent_iff _).2 ⟨5000, by norm_num⟩)
    ((esCent_iff _).2 ⟨3000, by norm_num⟩) rfl
    (by
      intro p hp
      rw [List.mem_singleton] at hp
      subst hp
      exact (esCent_iff _).2 ⟨2000, by norm_num⟩)

end Mensualidades
